import Mathlib

/-!
Verification development for the crawl4ai PlayGround script
(`src/crawl4ai/main.py`), a multi-page crawl orchestration program.

The script's own code (the CSS extraction schema, the per-page crawler
configuration, and the three-page crawl loop of `main`) is embedded
directly.  Components that live in the imported `crawl4ai` library
(navigation/cache consultation, the CSS-schema extractor, the LLM
extractor's chunk handling) are not part of this repository; where a
claim depends on them they are modelled from the specification, and each
such definition says so in its doc comment.
-/

namespace PlayGround

/-! ## Data model -/

/-- One field of a CSS extraction schema: `{name, selector, type}`
(shape of the entries of `schema["fields"]` in `main.py`). -/
structure Field where
  name : String
  selector : String
  type : String
deriving DecidableEq, Repr

/-- A CSS extraction schema: `{name, baseSelector, fields}`
(shape of the `schema` dict in `main.py`). -/
structure ExtractionSchema where
  name : String
  baseSelector : String
  fields : List Field
deriving DecidableEq, Repr

/-- The `schema` dict of `main.py` (lines 15-22): the data schema for the
CSS extraction strategy. -/
def schema : ExtractionSchema :=
  { name := "Product Block"
    baseSelector := "a.a-link-normal"
    fields := [⟨"title", "h2", "text"⟩, ⟨"price", "span.a-price", "text"⟩] }

/-- Configuration of an `LLMExtractionStrategy` as constructed in
`main.py` (provider, token, schema, instruction, chunking parameters,
generation arguments passed through opaquely). -/
structure LLMExtractionStrategy where
  provider : String
  api_token : Option String
  schema_fields : List String
  extraction_type : String
  instruction : String
  api_base : Option String
  model : Option String
  chunk_token_threshold : Nat
  overlap_rate : ℚ
  apply_chunking : Bool
  input_format : String
  extra_args : List (String × String)
deriving DecidableEq, Repr

/-- `llm_strategy` of `main.py` (lines 45-56).  The OpenAI API key comes
from the environment (`os.getenv`), so it is a parameter here. -/
def llm_strategy (openai_api_key : Option String) : LLMExtractionStrategy :=
  { provider := "openai/gpt-4o-mini"
    api_token := openai_api_key
    schema_fields := ["name", "price"]
    extraction_type := "schema"
    instruction := "Extract product name and price from the content."
    api_base := none
    model := none
    chunk_token_threshold := 1000
    overlap_rate := 0
    apply_chunking := true
    input_format := "markdown"
    extra_args := [("temperature", "0.1"), ("max_tokens", "800")] }

/-- `local_llm_strategy` of `main.py` (lines 60-72). -/
def local_llm_strategy : LLMExtractionStrategy :=
  { provider := "openai/text-completion"
    api_token := none
    schema_fields := ["name", "price"]
    extraction_type := "schema"
    instruction := "Extract product name and price from the content."
    api_base := some "http://localhost:1234/v1"
    model := some "qwen2.5-coder-14b-instruct"
    chunk_token_threshold := 1000
    overlap_rate := 0
    apply_chunking := true
    input_format := "markdown"
    extra_args := [("temperature", "0.1"), ("max_tokens", "800")] }

/-- The extraction strategy attached to a page request: either
`JsonCssExtractionStrategy(schema)` or an `LLMExtractionStrategy`. -/
inductive ExtractionStrategy where
  | jsonCss (s : ExtractionSchema) : ExtractionStrategy
  | llm (s : LLMExtractionStrategy) : ExtractionStrategy
deriving DecidableEq, Repr

/-- The cache policy enumeration.  The script uses `CacheMode.BYPASS`;
the specification enumerates `{bypass, read_only, write_only,
read_write, disabled}`. -/
inductive CacheMode where
  | bypass
  | read_only
  | write_only
  | read_write
  | disabled
deriving DecidableEq, Repr

/-- The fields of `CrawlerRunConfig` that `main.py` sets
(lines 87-97). -/
structure CrawlerRunConfig where
  js_only : Bool
  js_code : Option (List String)
  extraction_strategy : ExtractionStrategy
  css_selector : String
  session_id : String
  wait_for : Option String
  cache_mode : CacheMode
  exclude_external_links : Bool
  exclude_social_media_links : Bool
deriving DecidableEq, Repr

/-- The per-page result returned by `crawler.arun` as consumed by
`main.py` (lines 106-111): a success flag, the extracted content, and an
error message. -/
structure CrawlResult where
  success : Bool
  extracted_content : String
  error_message : String
deriving DecidableEq, Repr

/-! ## Constants of `main` -/

/-- `amazon_product_URL` (`main.py` line 27). -/
def amazon_product_URL : String :=
  "https://www.amazon.com/s?k=mobile+phone&crid=370OJ37JU1BF1&sprefix=mobile+pho%2Caps%2C353&ref=nb_sb_noss_2"

/-- `use_llm` (`main.py` line 33): `True` for LLM extraction, `False`
for CSS extraction.  The script fixes it to `False`. -/
def use_llm : Bool := false

/-- `session_name` (`main.py` line 36). -/
def session_name : String := "amazon_mobile_phone"

/-- `load_nextpage_js` (`main.py` line 78): the pagination JavaScript. -/
def load_nextpage_js : List String :=
  ["document.getElementsByClassName(\x27s-pagination-item s-pagination-next\x27)[0].click();"]

/-- `wait_for_code` (`main.py` line 81): the readiness predicate. -/
def wait_for_code : String :=
  "() => document.getElementsByClassName(\x27s-main-slot s-result-list s-search-results sg-row\x27)[0].childElementCount > 10"

/-! ## The per-page crawl loop of `main` -/

/-- The `crawler_config` built on iteration `page` of the loop
(`main.py` lines 87-97), with the conditionals exactly as written:
`js_only`, `js_code` and `wait_for` switch on `page > 0`, and
`extraction_strategy` switches on `use_llm`. -/
def crawler_config (openai_api_key : Option String) (page : Nat) : CrawlerRunConfig :=
  { js_only := if page > 0 then true else false
    js_code := if page > 0 then some load_nextpage_js else none
    extraction_strategy :=
      if use_llm then .llm (llm_strategy openai_api_key) else .jsonCss schema
    css_selector := "div[role=\"listitem\"]"
    session_id := session_name
    wait_for := if page > 0 then some wait_for_code else none
    cache_mode := .bypass
    exclude_external_links := true
    exclude_social_media_links := true }

/-- The arguments of the `crawler.arun` call on iteration `page`
(`main.py` lines 100-103): the constant URL and the per-page config. -/
def arunArgs (openai_api_key : Option String) (page : Nat) : String × CrawlerRunConfig :=
  (amazon_product_URL, crawler_config openai_api_key page)

/-- The crawl loop of `main` (`main.py` lines 84-111): `for page in
range(3)`, build the config, call `arun`, and handle the result.  The
body only prints on success or failure; there is no `break`, so every
iteration runs and contributes its result.  `arun` is the library call,
abstracted as a function from the call's arguments to a result. -/
def mainLoop (openai_api_key : Option String)
    (arun : String → CrawlerRunConfig → CrawlResult) : List CrawlResult :=
  (List.range 3).map fun page =>
    arun (arunArgs openai_api_key page).1 (arunArgs openai_api_key page).2

/-! ## CSS-schema extraction (spec-modelled) -/

/-- Modelled from the spec: the CSS-schema extractor operates on a parsed
page snapshot, but HTML parsing and DOM representation live in the
`crawl4ai` library, not in this repository.  An element carries the list
of selectors it matches, its text, and its children in document order;
a snapshot is the document-ordered list of top-level elements. -/
inductive Element where
  | node (selectors : List String) (text : String) (children : List Element) : Element
deriving Repr

mutual

/-- All elements within `e` (including `e` itself) matching `sel`, in
document (preorder) order. -/
def matchesIn (sel : String) : Element → List Element
  | .node sels txt children =>
      (if sel ∈ sels then [Element.node sels txt children] else []) ++ matchesAll sel children

/-- All elements in a document-ordered element list matching `sel`, in
document (preorder) order. -/
def matchesAll (sel : String) : List Element → List Element
  | [] => []
  | e :: rest => matchesIn sel e ++ matchesAll sel rest

end

/-- The text of an element. -/
def Element.text : Element → String
  | .node _ t _ => t

/-- The children of an element. -/
def Element.children : Element → List Element
  | .node _ _ cs => cs

/-- Modelled from the spec (§4.3): trim leading and trailing whitespace
from an extracted text value. -/
def trimText (s : String) : String :=
  ⟨((s.data.dropWhile Char.isWhitespace).reverse.dropWhile Char.isWhitespace).reverse⟩

/-- Modelled from the spec (§4.3, `CssSchemaExtractor` is library code):
resolve a field's `selector` relative to a matched container and coerce
per `type` — text extraction, whitespace trimmed, empty string if the
selector is absent within the container. -/
def fieldValue (container : Element) (f : Field) : String :=
  match matchesAll f.selector container.children with
  | [] => ""
  | e :: _ => trimText e.text

/-- One extracted record: field name paired with the resolved value, in
schema field order. -/
def extractRecord (s : ExtractionSchema) (container : Element) : List (String × String) :=
  s.fields.map fun f => (f.name, fieldValue container f)

/-- Error type of the CSS-schema extractor's contract
(`ExtractionParseError` in the spec's taxonomy, §7). -/
inductive ExtractionParseError where
  | malformed (message : String)
deriving DecidableEq, Repr

/-- Modelled from the spec (§4.3, `CssSchemaExtractor.extract` is library
code): locate all elements matching `baseSelector` in document order and
build one record per match. -/
def extract (rawContent : List Element) (s : ExtractionSchema) :
    Except ExtractionParseError (List (List (String × String))) :=
  .ok ((matchesAll s.baseSelector rawContent).map (extractRecord s))

/-! ## Navigation cache consultation (spec-modelled) -/

/-- Modelled from the spec (§4.2 step 3, §4.5; `NavigationController` is
library code): whether a cache policy permits reading a cached capture.
`bypass` forces navigation regardless of any existing capture;
`disabled` disables caching entirely; only `read_only` and `read_write`
may read. -/
def cacheReads : CacheMode → Bool
  | .read_only => true
  | .read_write => true
  | _ => false

/-- Modelled from the spec (§4.5): whether a cache policy permits
writing a capture.  `bypass` still allows an overwrite; `read_only`
never writes. -/
def cacheWrites : CacheMode → Bool
  | .bypass => true
  | .write_only => true
  | .read_write => true
  | _ => false

/-- The outcome of one navigation: either a cached capture returned
without a fresh navigation, or freshly captured content. -/
inductive NavOutcome where
  | cached (content : String) : NavOutcome
  | fresh (content : String) : NavOutcome
deriving DecidableEq, Repr

/-- Modelled from the spec (§4.2 steps 3-5; `NavigationController` is
library code): consult the cache policy; if it permits reading and a
capture exists for the effective key, return it immediately, otherwise
perform the navigation and capture fresh content. -/
def navigateCapture (policy : CacheMode) (cache : String → Option String)
    (key : String) (freshContent : String) : NavOutcome :=
  if cacheReads policy then
    match cache key with
    | some c => .cached c
    | none => .fresh freshContent
  else .fresh freshContent

/-! ## LLM chunk dispatch and reassembly (spec-modelled) -/

/-- Modelled from the spec (§4.4 steps 2-4, §5; `LlmExtractor` is
library code): chunk invocations may complete in any order; each
completed chunk stores its valid records (or nothing, for a chunk that
failed to parse or validate) in the slot of its own chunk index.
`completionOrder` is the order in which invocations finish. -/
def applyCompletions (backend : Nat → Option (List (List (String × String))))
    (completionOrder : List Nat)
    (slots : Nat → Option (List (List (String × String)))) :
    Nat → Option (List (List (String × String))) :=
  completionOrder.foldl (fun acc i => Function.update acc i (backend i)) slots

/-- Modelled from the spec (§4.4 step 4; `LlmExtractor.extract` is
library code): after all `n` chunk invocations complete (in
`completionOrder`), concatenate the valid records slot by slot in
original chunk order, preserving within-chunk order; a failed chunk
contributes no records. -/
def llmExtract (n : Nat) (completionOrder : List Nat)
    (backend : Nat → Option (List (List (String × String)))) :
    List (List (String × String)) :=
  ((List.range n).map fun i =>
    (applyCompletions backend completionOrder (fun _ => none) i).getD []).foldr
    (· ++ ·) []

/-! ## Helper lemmas -/

/-- The loop body runs exactly three times, once per `page` in
`range(3)`, producing the three `arun` results in page order. -/
theorem mainLoop_eq (key : Option String) (arun : String → CrawlerRunConfig → CrawlResult) :
    mainLoop key arun =
      [arun amazon_product_URL (crawler_config key 0),
        arun amazon_product_URL (crawler_config key 1),
        arun amazon_product_URL (crawler_config key 2)] := rfl

/-- A chunk index absent from the completion order keeps its initial
slot value. -/
theorem applyCompletions_not_mem (backend : Nat → Option (List (List (String × String))))
    (completionOrder : List Nat) (slots : Nat → Option (List (List (String × String))))
    (i : Nat) (hi : i ∉ completionOrder) :
    applyCompletions backend completionOrder slots i = slots i := by
  induction completionOrder generalizing slots with
  | nil => rfl
  | cons o os ih =>
      have hio : i ≠ o := fun h => hi (h ▸ List.mem_cons_self o os)
      have hos : i ∉ os := fun h => hi (List.mem_cons_of_mem o h)
      calc applyCompletions backend (o :: os) slots i
          = applyCompletions backend os (Function.update slots o (backend o)) i := rfl
        _ = Function.update slots o (backend o) i := ih _ hos
        _ = slots i := Function.update_noteq hio _ _

/-- A chunk index present in the completion order ends with its own
invocation's result in its slot, regardless of where in the order the
invocation completed. -/
theorem applyCompletions_mem (backend : Nat → Option (List (List (String × String))))
    (completionOrder : List Nat) (slots : Nat → Option (List (List (String × String))))
    (i : Nat) (hi : i ∈ completionOrder) :
    applyCompletions backend completionOrder slots i = backend i := by
  induction completionOrder generalizing slots with
  | nil => cases hi
  | cons o os ih =>
      by_cases hos : i ∈ os
      · exact ih _ hos
      · have hio : i = o := by
          rcases List.mem_cons.mp hi with h | h
          · exact h
          · exact absurd h hos
        subst hio
        calc applyCompletions backend (i :: os) slots i
            = applyCompletions backend os (Function.update slots i (backend i)) i := rfl
          _ = Function.update slots i (backend i) i := applyCompletions_not_mem _ _ _ _ hos
          _ = backend i := Function.update_same i _ slots

/-! ## Claim C1 -/

/-- Claim C1, counterexample: the claim says a failure at page k
(k < N-1) makes the orchestrator terminate the loop with exactly k+1
outcomes.  With an `arun` that fails on every page — so the failure is
at page 0, and 0 < N-1 = 2 — the loop of `main` still attempts all
three pages (there is no `break` in `main.py` lines 106-111): the run
has 3 outcomes, all failed, not 0+1 = 1. -/
theorem C1_counterexample :
    ((mainLoop none fun _ _ => ⟨false, "", "navigation error"⟩).map CrawlResult.success
        = [false, false, false]) ∧
      (mainLoop none fun _ _ => ⟨false, "", "navigation error"⟩).length = 3 ∧
      (mainLoop none fun _ _ => ⟨false, "", "navigation error"⟩).length ≠ 0 + 1 :=
  ⟨rfl, rfl, by decide⟩

/-- Claim C1, amended: if navigation or extraction fails at page k
(0-indexed, k < 3) of the 3-page run, the loop records the failing
outcome at position k but does not terminate: every page is still
attempted on the same session, the run contains exactly 3 outcomes, and
the first k outcomes are unaffected (each is exactly the `arun` result
for its own page). -/
theorem C1_failure_recorded_loop_continues (key : Option String)
    (arun : String → CrawlerRunConfig → CrawlResult) (k : Nat) (hk : k < 3)
    (hfail : (arun amazon_product_URL (crawler_config key k)).success = false) :
    (mainLoop key arun).length = 3 ∧
      (mainLoop key arun).get? k = some (arun amazon_product_URL (crawler_config key k)) ∧
      ∀ i, i < k → (mainLoop key arun).get? i
        = some (arun amazon_product_URL (crawler_config key i)) := by
  rw [mainLoop_eq]
  refine ⟨rfl, ?_, ?_⟩
  · interval_cases k <;> rfl
  · intro i hi
    have hi3 : i < 3 := lt_trans hi hk
    interval_cases i <;> rfl

/-- Witness for the amended C1 theorem at `k = 0` with a concrete
always-failing `arun`. -/
theorem C1_failure_recorded_loop_continues_witness :
    ((fun (_ : String) (_ : CrawlerRunConfig) =>
        (⟨false, "", "navigation error"⟩ : CrawlResult)) amazon_product_URL
          (crawler_config none 0)).success = false ∧
      (mainLoop none fun _ _ => (⟨false, "", "navigation error"⟩ : CrawlResult)).length = 3 ∧
      (mainLoop none fun _ _ => (⟨false, "", "navigation error"⟩ : CrawlResult)).get? 0
        = some (⟨false, "", "navigation error"⟩ : CrawlResult) :=
  ⟨rfl,
    (C1_failure_recorded_loop_continues none _ 0 (by decide) rfl).1,
    (C1_failure_recorded_loop_continues none _ 0 (by decide) rfl).2.1⟩

/-! ## Claim C2 -/

/-- Claim C2: for a run over the program's N = 3 pages in which every
navigation and extraction succeeds, the loop of `main` produces exactly
3 outcomes, each with `success = true`; all 3 pages are attempted, so
the run is never cut short (the spec's `stoppedEarly = false`). -/
theorem C2_all_success_full_run (key : Option String)
    (arun : String → CrawlerRunConfig → CrawlResult)
    (hsucc : ∀ page, page < 3 →
      (arun amazon_product_URL (crawler_config key page)).success = true) :
    (mainLoop key arun).length = 3 ∧ ∀ r ∈ mainLoop key arun, r.success = true := by
  rw [mainLoop_eq]
  refine ⟨rfl, ?_⟩
  intro r hr
  rcases List.mem_cons.mp hr with h | hr
  · exact h ▸ hsucc 0 (by decide)
  rcases List.mem_cons.mp hr with h | hr
  · exact h ▸ hsucc 1 (by decide)
  rcases List.mem_cons.mp hr with h | hr
  · exact h ▸ hsucc 2 (by decide)
  · cases hr

/-- Witness for C2 with a concrete always-succeeding `arun`. -/
theorem C2_all_success_full_run_witness :
    (∀ page, page < 3 →
      ((fun (_ : String) (_ : CrawlerRunConfig) =>
          (⟨true, "[]", ""⟩ : CrawlResult)) amazon_product_URL
            (crawler_config none page)).success = true) ∧
      (mainLoop none fun _ _ => (⟨true, "[]", ""⟩ : CrawlResult)).length = 3 ∧
      ∀ r ∈ mainLoop none fun _ _ => (⟨true, "[]", ""⟩ : CrawlResult), r.success = true :=
  ⟨fun _ _ => rfl,
    (C2_all_success_full_run none _ fun _ _ => rfl).1,
    (C2_all_success_full_run none _ fun _ _ => rfl).2⟩

/-! ## Claim C3 -/

/-- Claim C3: every page request follows the two-state shape.  Page 0
is a fresh load: `js_only = false`, no script actions (`js_code =
none`), no readiness predicate (`wait_for = none`).  Every page ≥ 1 is
a continuation: `js_only = true`, carrying the configured pagination
script actions (`load_nextpage_js`) and readiness predicate
(`wait_for_code`). -/
theorem C3_two_state_request_shape (key : Option String) :
    ((crawler_config key 0).js_only = false ∧
      (crawler_config key 0).js_code = none ∧
      (crawler_config key 0).wait_for = none) ∧
    ∀ page, 1 ≤ page →
      (crawler_config key page).js_only = true ∧
      (crawler_config key page).js_code = some load_nextpage_js ∧
      (crawler_config key page).wait_for = some wait_for_code := by
  refine ⟨⟨rfl, rfl, rfl⟩, ?_⟩
  intro page hp
  have h : page > 0 := hp
  simp [crawler_config, h]

/-- Witness for C3 at pages 0 and 1. -/
theorem C3_two_state_request_shape_witness :
    (crawler_config none 0).js_only = false ∧
      (crawler_config none 0).js_code = none ∧
      (crawler_config none 0).wait_for = none ∧
      (crawler_config none 1).js_only = true ∧
      (crawler_config none 1).js_code = some load_nextpage_js ∧
      (crawler_config none 1).wait_for = some wait_for_code :=
  ⟨(C3_two_state_request_shape none).1.1,
    (C3_two_state_request_shape none).1.2.1,
    (C3_two_state_request_shape none).1.2.2,
    ((C3_two_state_request_shape none).2 1 (by decide)).1,
    ((C3_two_state_request_shape none).2 1 (by decide)).2.1,
    ((C3_two_state_request_shape none).2 1 (by decide)).2.2⟩

/-! ## Claim C4 -/

/-- Claim C4: every page request of this program uses cache mode
`bypass` (`main.py` line 94), and under `bypass` navigation never
returns a cached capture even if one exists for the effective key — a
fresh navigation is always forced. -/
theorem C4_bypass_never_returns_cached (key : Option String) (page : Nat)
    (cache : String → Option String) (k cap content : String)
    (hcap : cache k = some cap) :
    (crawler_config key page).cache_mode = CacheMode.bypass ∧
      navigateCapture CacheMode.bypass cache k content = NavOutcome.fresh content :=
  ⟨rfl, rfl⟩

/-- Witness for C4 with a cache that does hold a capture for the key. -/
theorem C4_bypass_never_returns_cached_witness :
    (fun (s : String) => if s = "https://example.com" then some "stale capture" else none)
        "https://example.com" = some "stale capture" ∧
      (crawler_config none 0).cache_mode = CacheMode.bypass ∧
      navigateCapture CacheMode.bypass
        (fun (s : String) => if s = "https://example.com" then some "stale capture" else none)
        "https://example.com" "fresh capture" = NavOutcome.fresh "fresh capture" :=
  ⟨by decide,
    (C4_bypass_never_returns_cached none 0
      (fun (s : String) => if s = "https://example.com" then some "stale capture" else none)
      "https://example.com" "stale capture" "fresh capture" (by decide)).1,
    (C4_bypass_never_returns_cached none 0
      (fun (s : String) => if s = "https://example.com" then some "stale capture" else none)
      "https://example.com" "stale capture" "fresh capture" (by decide)).2⟩

/-! ## Claim C5 -/

/-- Claim C5: CSS-schema extraction is a pure function of the raw
content and the schema — deterministic and idempotent: two calls of
`extract` with the same `rawContent` and schema return the same ordered
record list (built in document order by `matchesAll`). -/
theorem C5_extract_deterministic (raw1 raw2 : List Element)
    (s1 s2 : ExtractionSchema) (hraw : raw1 = raw2) (hs : s1 = s2) :
    extract raw1 s1 = extract raw2 s2 := by
  rw [hraw, hs]

/-- Witness for C5: two calls on the program's own `schema` and a
concrete snapshot agree. -/
theorem C5_extract_deterministic_witness :
    extract [Element.node ["a.a-link-normal"] ""
        [Element.node ["h2"] "Phone" [], Element.node ["span.a-price"] "$5" []]] schema
      = extract [Element.node ["a.a-link-normal"] ""
        [Element.node ["h2"] "Phone" [], Element.node ["span.a-price"] "$5" []]] schema :=
  C5_extract_deterministic _ _ schema schema rfl rfl

/-! ## Claim C6 -/

/-- Claim C6: for every raw content in which `baseSelector` matches
zero elements, `extract` returns the empty record list, and never an
error. -/
theorem C6_no_base_match_empty_list (raw : List Element) (s : ExtractionSchema)
    (h : matchesAll s.baseSelector raw = []) :
    extract raw s = Except.ok [] := by
  unfold extract
  rw [h]
  rfl

/-- Witness for C6: a snapshot with no element matching the program
schema's `baseSelector` (`a.a-link-normal`). -/
theorem C6_no_base_match_empty_list_witness :
    matchesAll schema.baseSelector
        [Element.node ["div"] "no products here" [Element.node ["h2"] "heading" []]] = [] ∧
      extract [Element.node ["div"] "no products here" [Element.node ["h2"] "heading" []]]
        schema = Except.ok [] :=
  ⟨rfl,
    C6_no_base_match_empty_list
      [Element.node ["div"] "no products here" [Element.node ["h2"] "heading" []]] schema rfl⟩

/-! ## Claim C7 -/

/-- The spec's example schema: `{baseSelector: "a.item", fields:
[{name:"title", selector:"h2", type:"text"}, {name:"price",
selector:".price", type:"text"}]}`. -/
def exampleSchema : ExtractionSchema :=
  { name := "Example"
    baseSelector := "a.item"
    fields := [⟨"title", "h2", "text"⟩, ⟨"price", ".price", "text"⟩] }

/-- The spec's example snapshot: three matching anchors, two with full
title and price, the third missing its price element.  Texts carry
surrounding whitespace to exercise trimming. -/
def exampleSnapshot : List Element :=
  [Element.node ["a.item"] ""
      [Element.node ["h2"] " Phone A " [], Element.node [".price"] " $10 " []],
    Element.node ["a.item"] ""
      [Element.node ["h2"] "Phone B" [], Element.node [".price"] "$20" []],
    Element.node ["a.item"] ""
      [Element.node ["h2"] "Phone C" []]]

/-- Claim C7: a field whose selector is absent within its record
container is coerced to the empty string rather than dropped or
erroring: the example schema applied to a snapshot with 3 matching
anchors, one missing its price element, yields exactly 3 records, the
third with `price = ""` and values whitespace-trimmed. -/
theorem C7_missing_field_empty_string :
    extract exampleSnapshot exampleSchema = Except.ok
      [[("title", "Phone A"), ("price", "$10")],
        [("title", "Phone B"), ("price", "$20")],
        [("title", "Phone C"), ("price", "")]] := rfl

/-! ## Claim C8 -/

/-- Claim C8: if every chunk index below `n` appears in the completion
order, the LLM extractor's output is the concatenation of the valid
records of all chunks in original chunk order (within-chunk order
preserved by concatenation), independent of the order in which the
chunk invocations completed. -/
theorem C8_chunk_order_preserved (n : Nat) (completionOrder : List Nat)
    (backend : Nat → Option (List (List (String × String))))
    (hall : ∀ i, i < n → i ∈ completionOrder) :
    llmExtract n completionOrder backend
      = ((List.range n).map fun i => (backend i).getD []).foldr (· ++ ·) [] := by
  unfold llmExtract
  congr 1
  apply List.map_congr_left
  intro i hi
  rw [applyCompletions_mem backend completionOrder _ i (hall i (List.mem_range.mp hi))]

/-- Witness for C8: three chunks completing in the order 2, 0, 1, the
middle chunk failing validation, still reassemble in chunk order. -/
theorem C8_chunk_order_preserved_witness :
    (∀ i, i < 3 → i ∈ [2, 0, 1]) ∧
      llmExtract 3 [2, 0, 1]
        (fun i => if i = 0 then some [[("name", "Phone A"), ("price", "$10")]]
          else if i = 1 then none
          else some [[("name", "Phone C"), ("price", "$30")]])
        = ((List.range 3).map fun i =>
            ((fun i => if i = 0 then some [[("name", "Phone A"), ("price", "$10")]]
              else if i = 1 then none
              else some [[("name", "Phone C"), ("price", "$30")]]) i).getD []).foldr
            (· ++ ·) [] :=
  ⟨by decide,
    C8_chunk_order_preserved 3 [2, 0, 1]
      (fun i => if i = 0 then some [[("name", "Phone A"), ("price", "$10")]]
        else if i = 1 then none
        else some [[("name", "Phone C"), ("price", "$30")]])
      (by decide)⟩

/-! ## Claim C9 -/

/-- Claim C9: every `arun` call of the run passes the same constant URL
(`amazon_product_URL`) and a config carrying the same session id
(`"amazon_mobile_phone"`), on every page including the continuation
pages — one persistent session context serves the entire run. -/
theorem C9_constant_url_and_session (key : Option String) (page : Nat) :
    (arunArgs key page).1 = amazon_product_URL ∧
      (arunArgs key page).2.session_id = "amazon_mobile_phone" ∧
      (arunArgs key page).2.session_id = session_name :=
  ⟨rfl, rfl, rfl⟩

/-! ## Claim C10 -/

/-- Claim C10: `use_llm` is fixed to `False`, so the extraction
strategy dispatched on every page is `JsonCssExtractionStrategy(schema)`;
neither configured LLM strategy (`llm_strategy`, for any API key, nor
`local_llm_strategy`) is ever the strategy of a page request, so the
LLM extraction path is never exercised. -/
theorem C10_css_strategy_on_every_page (key : Option String) (page : Nat) :
    use_llm = false ∧
      (crawler_config key page).extraction_strategy = ExtractionStrategy.jsonCss schema ∧
      (∀ k2 : Option String,
        (crawler_config key page).extraction_strategy
          ≠ ExtractionStrategy.llm (llm_strategy k2)) ∧
      (crawler_config key page).extraction_strategy
        ≠ ExtractionStrategy.llm local_llm_strategy :=
  ⟨rfl, rfl, fun _ h => ExtractionStrategy.noConfusion h,
    fun h => ExtractionStrategy.noConfusion h⟩

/-- Witness for C10 at page 0. -/
theorem C10_css_strategy_on_every_page_witness :
    (crawler_config none 0).extraction_strategy = ExtractionStrategy.jsonCss schema ∧
      (crawler_config none 0).extraction_strategy
        ≠ ExtractionStrategy.llm local_llm_strategy :=
  ⟨(C10_css_strategy_on_every_page none 0).2.1,
    (C10_css_strategy_on_every_page none 0).2.2.2⟩

end PlayGround
